import Mathlib

/-!
Verification of the level orchestrator (src/screens/level.py) of a 2D
farming game: map load and switch with three-tier spawn resolution,
tool-use dispatch, the per-frame update pipeline, exit-warp detection,
the day-transition callback, event handling, and interaction dispatch.

Conventions of the embedding: positions are integer pixel coordinates,
map identifiers are opaque keys (modelled as naturals), pygame rectangles
are modelled with left/top/width/height, and emitted warnings are counted.
Collaborator classes that live outside the analysed source (the Transition
timer, the soil layer, tree sprites, player movement semantics) are
modelled from the specification and carry a doc comment saying so.
-/

namespace PydewLevel

/-- Positions are 2D integer pixel coordinates, as pygame uses them. -/
abbrev Pos := Int × Int

/-- Map identifiers are opaque keys into the map registry. -/
abbrev MapId := Nat

/-- Axis-aligned rectangle in the style of pygame.Rect: left, top, width, height. -/
structure Rect where
  x : Int
  y : Int
  w : Int
  h : Int
deriving DecidableEq

/-- pygame.Rect.colliderect: true when the two rectangles properly overlap;
rectangles sharing only an edge do not collide and degenerate rectangles
never collide. -/
def Rect.colliderect (a b : Rect) : Bool :=
  decide (a.x < b.x + b.w) && decide (b.x < a.x + a.w) &&
  decide (a.y < b.y + b.h) && decide (b.y < a.y + a.h)

/-- Sound cues played by Level.apply_tool. -/
inductive SoundName where
  | axe
  | hoe
  | water
  | plant
  | cant_plant
deriving DecidableEq

/-- Observable world mutations and cues produced by one tool dispatch:
a hit invoked on a tree, a played sound, or a delegation to the soil grid. -/
inductive Effect where
  | treeHit (id : Nat)
  | sound (s : SoundName)
  | soilHoe (pos : Pos)
  | soilWater (pos : Pos)
  | soilPlant (pos : Pos) (kind : Nat)
deriving DecidableEq

/-- True for the tree-hit effects. -/
def Effect.isTreeHit : Effect → Bool
  | .treeHit _ => true
  | _ => false

/-- True for the played-sound effects. -/
def Effect.isSound : Effect → Bool
  | .sound _ => true
  | _ => false

/-- True for the effects that delegate a mutation to the soil grid. -/
def Effect.isSoil : Effect → Bool
  | .soilHoe _ => true
  | .soilWater _ => true
  | .soilPlant _ _ => true
  | _ => false

/-- FarmingTool from src.enums: the tools matched by Level.apply_tool.
Every enum member other than AXE, HOE and WATERING_CAN is a seed; the
seed kinds are collapsed into one indexed constructor. -/
inductive FarmingTool where
  | AXE
  | HOE
  | WATERING_CAN
  | seed (kind : Nat)
deriving DecidableEq

/-- GameState from src.enums, restricted to the states Level switches to. -/
inductive GameState where
  | PAUSE
  | SHOP
  | PLAY
deriving DecidableEq

/-- Events posted by Level.handle_event via post_event. -/
inductive Posted where
  | dialogShow
  | dialogAdvance
deriving DecidableEq

/-- pygame events reaching Level.handle_event: a KEYDOWN with its key code,
the custom START_QUAKE event with its duration, or anything else. -/
inductive PEvent where
  | keydown (key : Nat)
  | startQuake (duration : Nat)
  | other
deriving DecidableEq

/-- pygame.K_ESCAPE key code. -/
def K_ESCAPE : Nat := 27

/-- The three configurable control key codes read by Level.handle_event. -/
structure Controls where
  debug_show_hitboxes : Nat
  show_dialog : Nat
  advance_dialog : Nat
deriving DecidableEq

/-- Names of interaction sprites tested by Level.interact. The source
compares the sprite name against the strings Bed and Trader; other
interactables are collapsed into an indexed constructor. -/
inductive InteractionName where
  | bed
  | trader
  | npc (n : Nat)
deriving DecidableEq

/-- An interaction sprite: a named region the player can overlap. -/
structure Interaction where
  name : InteractionName
  rect : Rect
deriving DecidableEq

/-- An exit-warp sprite: its name is the destination map identifier. -/
structure ExitWarp where
  name : MapId
  rect : Rect
deriving DecidableEq

/-- Modelled from the spec: a tree entity (the Tree sprite class is not part
of the analysed sources). It carries an alive flag, its hit-detection
hitbox, its current fruit sprites, and the fresh fruit that create_fruit
would regenerate, held as data. -/
structure Tree where
  id : Nat
  alive : Bool
  hitbox_rect : Rect
  fruit_sprites : List Nat
  new_fruit : List Nat
deriving DecidableEq

/-- Modelled from the spec: the soil grid collaborator (SoilLayer is not
part of the analysed sources). Its update advances the grid one day,
counted by days_advanced; hoe and plant report success or failure at a
position, held as data so the dispatcher can be run on any outcome. -/
structure SoilLayer where
  days_advanced : Nat
  raining : Bool
  hoe : Pos → Bool
  plant : Pos → Nat → Bool

/-- Modelled from the spec: SoilLayer.update advances the grid one day. -/
def SoilLayer.dayUpdate (s : SoilLayer) : SoilLayer :=
  { s with days_advanced := s.days_advanced + 1 }

/-- Modelled from the spec: the timed Transition controller (the Transition
class is not part of the analysed sources). It is Idle or Active, counts
elapsed ticks toward a duration, and its replaceable reset callback is a
partial application of switch_to_map, represented by the bound target map
identifier (none means the constructor default, which switches to the
current map). Its truthiness is its active flag. -/
structure Transition where
  active : Bool
  elapsed : Nat
  dur : Nat
  reset_target : Option MapId
deriving DecidableEq

/-- Modelled from the spec: Transition.activate moves Idle to Active only if
currently Idle, starting a fresh cycle; re-activation while Active is a
no-op. -/
def Transition.activate (t : Transition) : Transition :=
  if t.active then t else { t with active := true, elapsed := 0 }

/-- A character passed to the tool dispatcher: the controlled player or an
NPC. isPlayer models the isinstance check against the Player class. -/
structure Character where
  isPlayer : Bool
  rect : Rect
  hitbox_rect : Rect
  axe_hitbox : Rect
deriving DecidableEq

/-- The per-map data a GameMap instance exposes to Level: entry warps keyed
by origin map (in iteration order), the optional default spawnpoint, the
exit warps, the interaction sprites and the trees the map populates. -/
structure GameMap where
  player_entry_warps : List (MapId × Pos)
  player_spawnpoint : Option Pos
  player_exit_warps : List ExitWarp
  interactions : List Interaction
  trees : List Tree
deriving DecidableEq

/-- Association-list lookup modelling dict.get on the entry-warp mapping. -/
def warpLookup (k : MapId) : List (MapId × Pos) → Option Pos
  | [] => none
  | (k2, v) :: rest => if k2 = k then some v else warpLookup k rest

/-- Association-list lookup modelling dict.get on the map registry. -/
def mapLookup (k : MapId) : List (MapId × GameMap) → Option GameMap
  | [] => none
  | (k2, v) :: rest => if k2 = k then some v else mapLookup k rest

/-- The phases of one Level.update tick, in execution order, used to state
ordering properties of the frame pipeline. -/
inductive Phase where
  | exitCheck
  | rainUpdate
  | dayTransitionAdvance
  | mapTransitionAdvance
  | entitiesMove (playerMoved : Bool)
  | dropsUpdate
  | cutsceneUpdate
  | quakeUpdate
  | cameraUpdate
  | zoomUpdate
  | drawPhase
deriving DecidableEq

/-- True for the two transition-advancement phases of a tick. -/
def Phase.isTransAdvance : Phase → Bool
  | .dayTransitionAdvance => true
  | .mapTransitionAdvance => true
  | _ => false

/-- True for the entity-movement phase of a tick. -/
def Phase.isEntityMove : Phase → Bool
  | .entitiesMove _ => true
  | _ => false

/-- The Level state: the slice of the Level class the analysed behaviour
reads and writes. Player fields are flattened into the state; collaborators
whose internals are out of scope are represented by the data the level
exchanges with them. -/
structure Level where
  tmx_maps : List (MapId × GameMap)
  current_map : Option MapId
  game_map : Option GameMap
  player_pos : Pos
  player_direction : Pos
  player_blocked : Bool
  player_rect : Rect
  player_hitbox_rect : Rect
  controls : Controls
  player_exit_warps : List ExitWarp
  interaction_sprites : List Interaction
  tree_sprites : List Tree
  soil_layer : SoilLayer
  raining : Bool
  current_day : Nat
  sky_time : Nat × Nat
  sky_start_color : Nat × Nat × Nat
  map_transition : Transition
  day_transition : Transition
  cutscene_active : Bool
  show_hitbox_active : Bool
  warnings : Nat
  quake : Option Nat

/-- The spawn-resolution block of Level.load_map (the code between the
construction of the GameMap and the teleport): returns the resolved spawn
position, none when resolution fails with StopIteration, paired with the
number of warnings emitted. Tier 1 looks up the entry warp for the origin
map and warns when the origin is given but has no warp; tier 2 takes the
default spawnpoint; tier 3 warns and takes the first entry warp. -/
def resolve_player_spawn (gm : GameMap) (from_map : Option MapId) :
    Option Pos × Nat :=
  let step1 : Option Pos × Nat :=
    match from_map with
    | some f =>
      match warpLookup f gm.player_entry_warps with
      | some p => (some p, 0)
      | none => (none, 1)
    | none => (none, 0)
  match step1.1 with
  | some p => (some p, step1.2)
  | none =>
    match gm.player_spawnpoint with
    | some sp => (some sp, step1.2)
    | none =>
      match gm.player_entry_warps with
      | [] => (none, step1.2 + 1)
      | (_, p) :: _ => (some p, step1.2 + 1)

/-- The spawn priority exactly as the specification words it: the entry warp
registered for the origin if there is one, else the default spawnpoint if
present, else the first entry-warp position by iteration order. Stated
from the spec text for comparison against resolve_player_spawn. -/
def spawnPriority (gm : GameMap) (origin : Option MapId) : Option Pos :=
  match origin.bind fun o => warpLookup o gm.player_entry_warps with
  | some p => some p
  | none =>
    match gm.player_spawnpoint with
    | some sp => some sp
    | none => gm.player_entry_warps.head?.map fun kv => kv.2

/-- The tier-1 lookup of spawn resolution: the entry warp registered for the
given origin, when an origin is given at all. -/
def tier1Warp (gm : GameMap) (from_map : Option MapId) : Option Pos :=
  from_map.bind fun o => warpLookup o gm.player_entry_warps

/-- Level.load_map: clears the per-map sprite groups, constructs the new
map's entity data from the registry descriptor, resolves the spawn and
teleports the player there, then records the new map as current. Returns
none when the registry has no descriptor for the key (KeyError) or when
spawn resolution fails (StopIteration). Warnings are accumulated. -/
def Level.load_map (st : Level) (game_map : MapId) (from_map : Option MapId) :
    Option Level :=
  match mapLookup game_map st.tmx_maps with
  | none => none
  | some gm =>
    match resolve_player_spawn gm from_map with
    | (none, _) => none
    | (some p, w) =>
      some { st with
        game_map := some gm
        player_exit_warps := gm.player_exit_warps
        interaction_sprites := gm.interactions
        tree_sprites := gm.trees
        player_pos := p
        current_map := some game_map
        warnings := st.warnings + w }

/-- Level.switch_to_map: loads the target with the current map as origin
when the registry has the target, otherwise warns and reloads the current
map with the missing target as the origin. -/
def Level.switch_to_map (st : Level) (map_name : MapId) : Option Level :=
  if (mapLookup map_name st.tmx_maps).isSome then
    st.load_map map_name st.current_map
  else
    match st.current_map with
    | some c => Level.load_map { st with warnings := st.warnings + 1 } c (some map_name)
    | none => none

/-- Level.start_transition: blocks the player and zeroes its direction. -/
def Level.start_transition (st : Level) : Level :=
  { st with player_blocked := true, player_direction := ((0 : Int), (0 : Int)) }

/-- Level.finish_transition: unblocks the player. -/
def Level.finish_transition (st : Level) : Level :=
  { st with player_blocked := false }

/-- Level.start_day_transition: activates the day transition and starts the
blocking fade. -/
def Level.start_day_transition (st : Level) : Level :=
  Level.start_transition { st with day_transition := st.day_transition.activate }

/-- Level.start_map_transition: activates the map transition and starts the
blocking fade. -/
def Level.start_map_transition (st : Level) : Level :=
  Level.start_transition { st with map_transition := st.map_transition.activate }

/-- Level.check_map_exit: when the map transition is not active, scan the
exit warps in order; on the first warp overlapping the player hitbox,
replace the map transition's reset callback with a switch to that warp's
target, start the map transition, and stop scanning. -/
def Level.check_map_exit (st : Level) : Level :=
  if !st.map_transition.active then
    match st.player_exit_warps.find? fun w => st.player_hitbox_rect.colliderect w.rect with
    | some w =>
      Level.start_map_transition
        { st with map_transition := { st.map_transition with reset_target := some w.name } }
    | none => st
  else st

/-- The per-tree body of the fruit loop in Level.reset: kill every fruit
sprite, then create fresh fruit if the tree is alive. -/
def treeDayReset (t : Tree) : Tree :=
  let t1 := { t with fruit_sprites := ([] : List Nat) }
  if t.alive then { t1 with fruit_sprites := t.new_fruit } else t1

/-- Level.reset, the day-transition callback: increments the day counter,
advances the soil grid one day, redraws the raining flag from the random
draw r modelling randint between 0 and 10, kills and regenerates tree
fruit, and resets the sky to 06:00. -/
def Level.reset (st : Level) (r : Nat) : Level :=
  let st1 := { st with current_day := st.current_day + 1 }
  let st2 := { st1 with soil_layer := st1.soil_layer.dayUpdate }
  let rain := decide (7 < r)
  let st3 := { st2 with
    raining := rain
    soil_layer := { st2.soil_layer with raining := rain } }
  let st4 := { st3 with tree_sprites := st3.tree_sprites.map treeDayReset }
  { st4 with sky_start_color := (255, 255, 255), sky_time := (6, 0) }

/-- Level._play_playeronly_sound: the sound plays only when the entity is
the controlled player. -/
def play_playeronly_sound (s : SoundName) (entity : Character) : List Effect :=
  if entity.isPlayer then [Effect.sound s] else []

/-- Level.apply_tool: dispatch over the closed set of tools. The axe hits
every tree whose hitbox intersects the actor's axe hitbox, playing the
player-only axe sound per hit; the hoe delegates to the soil grid and plays
its sound only on success; the watering can delegates and plays its sound
unconditionally; every other tool is a seed whose sound depends on
planting success. The returned list records the effects in order. -/
def Level.apply_tool (st : Level) (tool : FarmingTool) (pos : Pos)
    (entity : Character) : List Effect :=
  match tool with
  | .AXE =>
    (st.tree_sprites.filter fun t => entity.axe_hitbox.colliderect t.hitbox_rect).flatMap
      fun t => Effect.treeHit t.id :: play_playeronly_sound .axe entity
  | .HOE =>
    Effect.soilHoe pos ::
      (if st.soil_layer.hoe pos then play_playeronly_sound .hoe entity else [])
  | .WATERING_CAN =>
    Effect.soilWater pos :: play_playeronly_sound .water entity
  | .seed k =>
    Effect.soilPlant pos k ::
      (if st.soil_layer.plant pos k then play_playeronly_sound .plant entity
       else play_playeronly_sound .cant_plant entity)

/-- Level.interact: collide the player rect with the interaction sprites;
only the first collided sprite is inspected — Bed starts the day
transition, Trader switches the screen to the shop. -/
def Level.interact (st : Level) : Level × Option GameState :=
  match st.interaction_sprites.filter fun i => st.player_rect.colliderect i.rect with
  | [] => (st, none)
  | first :: _ =>
    ((if first.name = InteractionName.bed then st.start_day_transition else st),
     (if first.name = InteractionName.trader then some GameState.SHOP else none))

/-- The outcome of Level.handle_event: the updated state, the consumed
boolean the method returns, the screen it switched to, and the events it
posted. -/
structure HandleResult where
  level : Level
  consumed : Bool
  switch_screen : Option GameState
  posted : List Posted

/-- Level.handle_event: on KEYDOWN, escape switches to the pause screen,
the debug key toggles the hitbox overlay, the dialog keys post dialog
events, each returning true; a START_QUAKE event starts the quaker but
falls through to the final return False, as does everything else. -/
def Level.handle_event (st : Level) (e : PEvent) : HandleResult :=
  match e with
  | .keydown k =>
    if k = K_ESCAPE then
      { level := st, consumed := true, switch_screen := some GameState.PAUSE, posted := [] }
    else if k = st.controls.debug_show_hitboxes then
      { level := { st with show_hitbox_active := !st.show_hitbox_active },
        consumed := true, switch_screen := none, posted := [] }
    else if k = st.controls.show_dialog then
      { level := st, consumed := true, switch_screen := none, posted := [Posted.dialogShow] }
    else if k = st.controls.advance_dialog then
      { level := st, consumed := true, switch_screen := none, posted := [Posted.dialogAdvance] }
    else
      { level := st, consumed := false, switch_screen := none, posted := [] }
  | .startQuake d =>
    { level := { st with quake := some d }, consumed := false,
      switch_screen := none, posted := [] }
  | .other =>
    { level := st, consumed := false, switch_screen := none, posted := [] }

/-- Modelled from the spec: one Transition.update step of the day
transition, with its callbacks inlined — the day-reset callback fires when
elapsed crosses the midpoint of the duration, and the transition returns
to Idle at full duration, firing finish_transition. The random draw r is
passed through to the reset callback. -/
def Level.day_transition_update (st : Level) (r : Nat) : Level :=
  let t := st.day_transition
  if t.active then
    let e := t.elapsed + 1
    let st1 := { st with day_transition := { t with elapsed := e } }
    let st2 := if t.elapsed < t.dur / 2 ∧ t.dur / 2 ≤ e then st1.reset r else st1
    if t.dur ≤ e then
      Level.finish_transition
        { st2 with day_transition := { st2.day_transition with active := false } }
    else st2
  else st

/-- Modelled from the spec: one Transition.update step of the map
transition, with its callbacks inlined — the replaceable reset callback, a
switch_to_map bound to the stored target (defaulting to the current map),
fires when elapsed crosses the midpoint, and the transition returns to
Idle at full duration, firing finish_transition. Returns none when the
fired switch itself fails fatally. -/
def Level.map_transition_update (st : Level) : Option Level :=
  let t := st.map_transition
  if t.active then
    let e := t.elapsed + 1
    let st1 := { st with map_transition := { t with elapsed := e } }
    let st2opt :=
      if t.elapsed < t.dur / 2 ∧ t.dur / 2 ≤ e then
        match st1.map_transition.reset_target with
        | some tgt => st1.switch_to_map tgt
        | none =>
          match st1.current_map with
          | some c => st1.switch_to_map c
          | none => none
      else some st1
    st2opt.map fun st2 =>
      if t.dur ≤ e then
        Level.finish_transition
          { st2 with map_transition := { st2.map_transition with active := false } }
      else st2
  else some st

/-- Level.update: one frame tick. The exit-warp check runs first, then the
rain update, then both transition advancements; when move_things holds the
entities, drops, cutscene, quake, camera and zoom advance, and the frame
draws last. Entity movement follows the blocked-flag semantics modelled
from the spec: the player position advances along its direction only when
neither blocked nor overridden by an active cutscene. The returned trace
lists the executed phases in order; none propagates a fatal map switch. -/
def Level.update (st : Level) (move_things : Bool) (r : Nat) :
    Option (Level × List Phase) :=
  let st1 := st.check_map_exit
  let st2 := st1.day_transition_update r
  st2.map_transition_update.map fun st3 =>
    if move_things then
      let playerMoved := !st3.cutscene_active && !st3.player_blocked
      let st4 := { st3 with
        player_pos :=
          if playerMoved then
            (st3.player_pos.1 + st3.player_direction.1,
             st3.player_pos.2 + st3.player_direction.2)
          else st3.player_pos }
      (st4,
        [Phase.exitCheck, Phase.rainUpdate, Phase.dayTransitionAdvance,
         Phase.mapTransitionAdvance, Phase.entitiesMove playerMoved,
         Phase.dropsUpdate, Phase.cutsceneUpdate, Phase.quakeUpdate,
         Phase.cameraUpdate, Phase.zoomUpdate, Phase.drawPhase])
    else
      (st3,
        [Phase.exitCheck, Phase.rainUpdate, Phase.dayTransitionAdvance,
         Phase.mapTransitionAdvance, Phase.drawPhase])

/-! ## Concrete states for witnesses and counterexamples -/

/-- A minimal soil layer for concrete states. -/
def soilW : SoilLayer :=
  { days_advanced := 0, raining := false, hoe := fun _ => true, plant := fun _ _ => true }

/-- An idle transition of duration d with no stored reset target. -/
def idleTransition (d : Nat) : Transition :=
  { active := false, elapsed := 0, dur := d, reset_target := none }

/-- A 10 by 10 rectangle at the origin. -/
def rect0 : Rect := { x := 0, y := 0, w := 10, h := 10 }

/-- Default controls for concrete states. -/
def controlsW : Controls :=
  { debug_show_hitboxes := 104, show_dialog := 116, advance_dialog := 32 }

/-- Map 0 of the witness registry: a default spawnpoint and an entry warp
registered for arrivals from map 1. -/
def gmW : GameMap :=
  { player_entry_warps := [(1, ((7 : Int), (8 : Int)))]
    player_spawnpoint := some ((3 : Int), (3 : Int))
    player_exit_warps := []
    interactions := []
    trees := [] }

/-- A destination descriptor with one entry warp, registered for map 2, and
no default spawnpoint. -/
def gmTwoWarnings : GameMap :=
  { player_entry_warps := [(2, ((5 : Int), (5 : Int)))]
    player_spawnpoint := none
    player_exit_warps := []
    interactions := []
    trees := [] }

/-- A concrete level sitting on map 0, whose registry holds only map 0. -/
def stW : Level :=
  { tmx_maps := [(0, gmW)]
    current_map := some 0
    game_map := some gmW
    player_pos := ((3 : Int), (3 : Int))
    player_direction := ((0 : Int), (0 : Int))
    player_blocked := false
    player_rect := rect0
    player_hitbox_rect := rect0
    controls := controlsW
    player_exit_warps := []
    interaction_sprites := []
    tree_sprites := []
    soil_layer := soilW
    raining := false
    current_day := 0
    sky_time := (6, 0)
    sky_start_color := (255, 255, 255)
    map_transition := idleTransition 2400
    day_transition := idleTransition 3200
    cutscene_active := false
    show_hitbox_active := false
    warnings := 0
    quake := none }

/-- An exit warp to map 1 covering the origin rectangle. -/
def warpB : ExitWarp := { name := 1, rect := rect0 }

/-- The level stW with one exit warp overlapping the player hitbox. -/
def stWarp : Level := { stW with player_exit_warps := [warpB] }

/-- The level stWarp with the player walking right. -/
def stMove : Level := { stWarp with player_direction := ((1 : Int), (0 : Int)) }

/-- The level stW with the player walking right and no exit warp. -/
def stFree : Level := { stW with player_direction := ((1 : Int), (0 : Int)) }

/-- The state and trace one tick of update produces on stMove. -/
def updMoveResult : Level × List Phase := (stMove.update true 0).getD (stMove, [])

/-- The controlled player as a character handed to the tool dispatcher. -/
def charP : Character :=
  { isPlayer := true, rect := rect0, hitbox_rect := rect0, axe_hitbox := rect0 }

/-- The tile position used by the tool-dispatch witnesses. -/
def p0 : Pos := ((0 : Int), (0 : Int))

/-- A bed interaction sprite at the origin. -/
def bedI : Interaction := { name := InteractionName.bed, rect := rect0 }

/-- A trader interaction sprite at the origin. -/
def traderI : Interaction := { name := InteractionName.trader, rect := rect0 }

/-- The level stW overlapping a bed first and a trader second. -/
def stBed : Level := { stW with interaction_sprites := [bedI, traderI] }

/-! ## Theorems -/

/-- Claim C1: for every map load, the spawn position is resolved by the
strict three-tier priority — an entry warp registered for the given origin
wins even over an existing default spawnpoint, else the default
spawnpoint, else the first entry warp by iteration order; resolution
fails exactly when the destination has neither a default spawnpoint nor
any entry warp; and load_map teleports the player to the resolved
position. -/
theorem spawn_resolution_three_tier :
    ∀ (gm : GameMap) (f : Option MapId),
      (resolve_player_spawn gm f).1 = spawnPriority gm f ∧
      ((resolve_player_spawn gm f).1 = none ↔
        gm.player_spawnpoint = none ∧ gm.player_entry_warps = []) ∧
      ∀ (st : Level) (m : MapId),
        (st.load_map m f).map (fun s => s.player_pos) =
          (mapLookup m st.tmx_maps).bind fun gm2 => (resolve_player_spawn gm2 f).1 := by
  have hres : ∀ (gm : GameMap) (f : Option MapId),
      (resolve_player_spawn gm f).1 = spawnPriority gm f ∧
      ((resolve_player_spawn gm f).1 = none ↔
        gm.player_spawnpoint = none ∧ gm.player_entry_warps = []) := by
    intro gm f
    cases f with
    | none =>
      cases hs : gm.player_spawnpoint <;>
        rcases hw : gm.player_entry_warps with _ | ⟨⟨k, p⟩, rest⟩ <;>
          simp [resolve_player_spawn, spawnPriority, hs, hw]
    | some o =>
      cases hl : warpLookup o gm.player_entry_warps with
      | some p =>
        simp [resolve_player_spawn, spawnPriority, hl]
        intro _ hw
        rw [hw] at hl
        simp [warpLookup] at hl
      | none =>
        cases hs : gm.player_spawnpoint <;>
          rcases hw : gm.player_entry_warps with _ | ⟨⟨k, p⟩, rest⟩ <;>
            simp [resolve_player_spawn, spawnPriority, hs, hw, hl] <;>
            simp [hw] at hl <;> simp [hl]
  intro gm f
  refine ⟨(hres gm f).1, (hres gm f).2, ?_⟩
  intro st m
  cases hm : mapLookup m st.tmx_maps with
  | none => simp [Level.load_map, hm]
  | some gm2 =>
    rcases hr : resolve_player_spawn gm2 f with ⟨_ | p, w⟩ <;>
      simp [Level.load_map, hm, hr]

/-- Claim C9 counterexample: arriving from map 1, for which the destination
gmTwoWarnings has no entry warp, and with no default spawnpoint either,
spawn resolution falls back to the registered entry warp but emits two
warnings, not exactly one as the claim states. -/
theorem spawn_resolution_two_warnings :
    resolve_player_spawn gmTwoWarnings (some 1) =
      (some ((5 : Int), (5 : Int)), 2) := by
  rfl

/-- Claim C9 (amended): each missing tier emits its own warning — one when a
given origin has no matching entry warp, and one when the default
spawnpoint is absent. Hence the default-spawnpoint fallback with a given
origin emits exactly one warning, the entry-warp fallback emits one
warning when no origin was given and two when a given origin also had no
matching warp, and no warning is emitted when no origin is given and the
default spawnpoint is used. -/
theorem spawn_resolution_warning_count :
    ∀ (gm : GameMap) (f : Option MapId),
      (resolve_player_spawn gm f).2 =
        (match f with
         | some o => if warpLookup o gm.player_entry_warps = none then 1 else 0
         | none => 0) +
        (if tier1Warp gm f = none ∧ gm.player_spawnpoint = none then 1 else 0) := by
  intro gm f
  cases f with
  | none =>
    cases hs : gm.player_spawnpoint with
    | some sp => simp [resolve_player_spawn, tier1Warp, hs]
    | none =>
      simp [resolve_player_spawn, tier1Warp, hs]
      rcases gm.player_entry_warps with _ | ⟨⟨k, p⟩, rest⟩ <;> simp
  | some o =>
    cases hl : warpLookup o gm.player_entry_warps with
    | some p => simp [resolve_player_spawn, tier1Warp, hl]
    | none =>
      cases hs : gm.player_spawnpoint with
      | some sp => simp [resolve_player_spawn, tier1Warp, hl, hs]
      | none =>
        simp [resolve_player_spawn, tier1Warp, hl, hs]
        rcases gm.player_entry_warps with _ | ⟨⟨k, p⟩, rest⟩ <;> simp

/-- Claim C2: switching to an unregistered map warns and reloads the current
map with the missing identifier as the origin — the current map identifier
is unchanged afterwards and the player stands at the spawn resolved as if
arriving from the missing map — while switching to a registered map loads
that map with the previously current map as the origin. -/
theorem switch_to_map_fallback :
    ∀ (st : Level) (target c : MapId),
      st.current_map = some c →
      ((mapLookup target st.tmx_maps = none →
          st.switch_to_map target =
            Level.load_map { st with warnings := st.warnings + 1 } c (some target) ∧
          ∀ (gm : GameMap) (st2 : Level),
            mapLookup c st.tmx_maps = some gm →
            st.switch_to_map target = some st2 →
            st2.current_map = some c ∧
            some st2.player_pos = (resolve_player_spawn gm (some target)).1 ∧
            st2.warnings = st.warnings + 1 + (resolve_player_spawn gm (some target)).2) ∧
       ((mapLookup target st.tmx_maps).isSome →
          st.switch_to_map target = st.load_map target (some c))) := by
  intro st target c hc
  constructor
  · intro hmiss
    constructor
    · simp [Level.switch_to_map, hmiss, hc]
    · intro gm st2 hgm hsw
      simp [Level.switch_to_map, hmiss, hc] at hsw
      rcases hr : resolve_player_spawn gm (some target) with ⟨_ | p, w⟩
      · simp [Level.load_map, hgm, hr] at hsw
      · simp [Level.load_map, hgm, hr] at hsw
        subst hsw
        simp
  · intro hsome
    simp [Level.switch_to_map, hsome, hc]

/-- Claim C2 witness: on the concrete level stW, whose registry lacks map 1,
switching to map 1 reloads map 0 with origin 1 after the extra warning. -/
theorem switch_to_map_fallback_witness :
    stW.switch_to_map 1 =
      Level.load_map { stW with warnings := stW.warnings + 1 } 0 (some 1) :=
  ((switch_to_map_fallback stW 1 0 rfl).1 rfl).1

/-- Helper: the effect of check_map_exit when the map transition is idle and
a first overlapping exit warp exists. -/
theorem check_map_exit_fires_aux (st : Level) (w : ExitWarp)
    (ha : st.map_transition.active = false)
    (hf : (st.player_exit_warps.find? fun w2 =>
      st.player_hitbox_rect.colliderect w2.rect) = some w) :
    st.check_map_exit =
      { st with
        map_transition :=
          { st.map_transition with
            reset_target := some w.name, active := true, elapsed := 0 }
        player_blocked := true
        player_direction := ((0 : Int), (0 : Int)) } := by
  simp [Level.check_map_exit, ha, hf, Level.start_map_transition,
    Level.start_transition, Transition.activate]

/-- Claim C3: exit warps are scanned only while no map transition is active,
and on the first player hitbox overlap with an exit warp the transition's
reset callback is replaced by a switch to that warp's target, the player
is blocked, the map transition is activated, and scanning stops — the
resulting state differs in exactly those fields (blocking also zeroes the
player direction). -/
theorem check_map_exit_behaviour :
    ∀ (st : Level),
      (st.map_transition.active = true → st.check_map_exit = st) ∧
      ((st.player_exit_warps.find? fun w2 =>
          st.player_hitbox_rect.colliderect w2.rect) = none →
        st.check_map_exit = st) ∧
      ∀ (w : ExitWarp),
        st.map_transition.active = false →
        (st.player_exit_warps.find? fun w2 =>
          st.player_hitbox_rect.colliderect w2.rect) = some w →
        st.check_map_exit =
          { st with
            map_transition :=
              { st.map_transition with
                reset_target := some w.name, active := true, elapsed := 0 }
            player_blocked := true
            player_direction := ((0 : Int), (0 : Int)) } := by
  intro st
  refine ⟨?_, ?_, fun w ha hf => check_map_exit_fires_aux st w ha hf⟩
  · intro ha
    simp [Level.check_map_exit, ha]
  · intro hf
    by_cases ha : st.map_transition.active
    · simp [Level.check_map_exit, ha]
    · simp [Level.check_map_exit, ha, hf]

/-- Claim C3 witness: on the concrete level stWarp the overlapping exit warp
to map 1 registers itself as the reset target, blocks the player, and
activates the map transition. -/
theorem check_map_exit_behaviour_witness :
    stWarp.check_map_exit =
      { stWarp with
        map_transition :=
          { stWarp.map_transition with
            reset_target := some warpB.name, active := true, elapsed := 0 }
        player_blocked := true
        player_direction := ((0 : Int), (0 : Int)) } :=
  (check_map_exit_behaviour stWarp).2.2 warpB rfl rfl

/-- Claim C4 counterexample: on stMove the player walks right into an exit
warp; in the very tick that activates the map transition the player does
not move, while on the warp-free stFree the same tick moves the player —
so the activation blocks movement in its own tick, not only the next. -/
theorem update_same_tick_block_counterexample :
    (stMove.update true 0).map (fun x => (x.1.player_pos, x.1.map_transition.active)) =
      some (((3 : Int), (3 : Int)), true) ∧
    (stFree.update true 0).map (fun x => (x.1.player_pos, x.1.map_transition.active)) =
      some (((4 : Int), (3 : Int)), false) := by
  constructor <;> rfl

/-- Claim C4 (amended): within one tick of update both transition
advancements precede entity movement, and a map transition activated by
the exit-warp check of a tick blocks player movement already in that same
tick, because the check sets the blocked flag before the movement step. -/
theorem update_ordering_and_same_tick_block :
    ∀ (st : Level) (mv : Bool) (r : Nat) (st2 : Level) (tr : List Phase),
      st.update mv r = some (st2, tr) →
      ((∃ b, tr.filter (fun p => p.isTransAdvance || p.isEntityMove) =
          [Phase.dayTransitionAdvance, Phase.mapTransitionAdvance] ++
            (if mv then [Phase.entitiesMove b] else [])) ∧
       ∀ (w : ExitWarp),
         mv = true →
         st.day_transition.active = false →
         st.map_transition.active = false →
         st.map_transition.dur = 2400 →
         (st.player_exit_warps.find? fun wp =>
           st.player_hitbox_rect.colliderect wp.rect) = some w →
         st2.player_pos = st.player_pos ∧
         st2.map_transition.active = true ∧
         Phase.entitiesMove false ∈ tr) := by
  intro st mv r st2 tr hup
  rw [Level.update] at hup
  rw [Option.map_eq_some'] at hup
  obtain ⟨st3, hst3, hfn⟩ := hup
  constructor
  · cases mv with
    | true =>
      refine ⟨!st3.cutscene_active && !st3.player_blocked, ?_⟩
      have htr : tr =
          [Phase.exitCheck, Phase.rainUpdate, Phase.dayTransitionAdvance,
           Phase.mapTransitionAdvance,
           Phase.entitiesMove (!st3.cutscene_active && !st3.player_blocked),
           Phase.dropsUpdate, Phase.cutsceneUpdate, Phase.quakeUpdate,
           Phase.cameraUpdate, Phase.zoomUpdate, Phase.drawPhase] := by
        simp at hfn
        exact hfn.2.symm
      rw [htr]
      simp [Phase.isTransAdvance, Phase.isEntityMove]
    | false =>
      refine ⟨true, ?_⟩
      have htr : tr =
          [Phase.exitCheck, Phase.rainUpdate, Phase.dayTransitionAdvance,
           Phase.mapTransitionAdvance, Phase.drawPhase] := by
        simp at hfn
        exact hfn.2.symm
      rw [htr]
      simp [Phase.isTransAdvance, Phase.isEntityMove]
  · intro w hmv hday hmap hdur hf
    subst hmv
    rw [check_map_exit_fires_aux st w hmap hf] at hst3
    rw [Level.day_transition_update] at hst3
    simp [hday] at hst3
    rw [Level.map_transition_update] at hst3
    simp [hdur] at hst3
    subst hst3
    simp at hfn
    obtain ⟨h2, htr2⟩ := hfn
    subst h2
    subst htr2
    refine ⟨by simp, by simp, by simp⟩

/-- Claim C4 witness: the tick of stMove that walks into the exit warp
leaves the player position unchanged, activates the map transition, and
records a blocked entity-movement phase. -/
theorem update_ordering_and_same_tick_block_witness :
    updMoveResult.1.player_pos = stMove.player_pos ∧
    updMoveResult.1.map_transition.active = true ∧
    Phase.entitiesMove false ∈ updMoveResult.2 :=
  (update_ordering_and_same_tick_block stMove true 0 updMoveResult.1 updMoveResult.2
    (by rfl)).2 warpB rfl rfl rfl rfl (by rfl)

/-- Claim C5: each firing of the day-transition callback increments the day
counter by exactly 1, advances the soil grid one day, sets the raining
flag to whether the random draw from 0..10 exceeds 7 — which holds for
exactly 3 of the 11 possible draws — kills every existing fruit and
regenerates fresh fruit exactly on the trees still alive, and resets the
sky clock to 06:00. -/
theorem day_reset_effects :
    ∀ (st : Level) (r : Nat),
      (st.reset r).current_day = st.current_day + 1 ∧
      (st.reset r).soil_layer.days_advanced = st.soil_layer.days_advanced + 1 ∧
      (st.reset r).raining = decide (7 < r) ∧
      ((Finset.range 11).filter fun q => (st.reset q).raining = true).card = 3 ∧
      (st.reset r).tree_sprites.map (fun t => t.fruit_sprites) =
        st.tree_sprites.map (fun t => if t.alive then t.new_fruit else []) ∧
      (st.reset r).sky_time = (6, 0) := by
  intro st r
  refine ⟨?_, ?_, ?_, ?_, ?_, ?_⟩
  · simp [Level.reset]
  · simp [Level.reset, SoilLayer.dayUpdate]
  · simp [Level.reset]
  · have hcong : ((Finset.range 11).filter fun q => (st.reset q).raining = true) =
        (Finset.range 11).filter fun q => 7 < q := by
      apply Finset.filter_congr
      intro q _
      simp [Level.reset]
    rw [hcong]
    decide
  · simp only [Level.reset, List.map_map]
    apply List.map_congr_left
    intro t _
    by_cases ht : t.alive <;> simp [treeDayReset, ht]
  · simp [Level.reset]

/-- Helper: the hit events of one axe dispatch over a tree list are exactly
one hit per tree, in order, whenever the per-tree tail holds no hit. -/
theorem axe_filter_hits (l : List Tree) (P : List Effect)
    (hP : P.filter Effect.isTreeHit = []) :
    (l.flatMap fun t => Effect.treeHit t.id :: P).filter Effect.isTreeHit =
      l.map fun t => Effect.treeHit t.id := by
  induction l with
  | nil => simp
  | cons t ts ih => simp [List.filter_append, hP, Effect.isTreeHit, ih]

/-- Helper: with the player as actor, one axe sound plays per hit tree. -/
theorem axe_filter_sounds_player (l : List Tree) :
    (l.flatMap fun t =>
        Effect.treeHit t.id :: [Effect.sound SoundName.axe]).filter Effect.isSound =
      List.replicate l.length (Effect.sound SoundName.axe) := by
  induction l with
  | nil => simp
  | cons t ts ih =>
    simp [List.filter_append, Effect.isSound, List.replicate_succ, ih]

/-- Helper: with a non-player actor, an axe dispatch plays no sound. -/
theorem axe_filter_sounds_npc (l : List Tree) :
    (l.flatMap fun t =>
        Effect.treeHit t.id :: ([] : List Effect)).filter Effect.isSound = [] := by
  induction l with
  | nil => simp
  | cons t ts ih => simpa [Effect.isSound] using ih

/-- Claim C6: an axe dispatch hits exactly the trees whose hit-detection
hitbox intersects the actor's axe hitbox, once each in group order and no
other tree, and the axe sound plays once per hit tree exactly when the
actor is the controlled player. -/
theorem apply_tool_axe :
    ∀ (st : Level) (pos : Pos) (entity : Character),
      ((st.apply_tool FarmingTool.AXE pos entity).filter Effect.isTreeHit =
        (st.tree_sprites.filter fun t =>
          entity.axe_hitbox.colliderect t.hitbox_rect).map fun t => Effect.treeHit t.id) ∧
      ((st.apply_tool FarmingTool.AXE pos entity).filter Effect.isSound =
        if entity.isPlayer then
          List.replicate
            (st.tree_sprites.filter fun t =>
              entity.axe_hitbox.colliderect t.hitbox_rect).length
            (Effect.sound SoundName.axe)
        else []) := by
  intro st pos entity
  by_cases hp : entity.isPlayer
  · have hplay : play_playeronly_sound .axe entity = [Effect.sound SoundName.axe] := by
      simp [play_playeronly_sound, hp]
    constructor
    · simp only [Level.apply_tool, hplay]
      exact axe_filter_hits _ _ (by simp [Effect.isTreeHit])
    · simp only [Level.apply_tool, hplay, hp, if_true]
      exact axe_filter_sounds_player _
  · have hplay : play_playeronly_sound .axe entity = [] := by
      simp [play_playeronly_sound, hp]
    constructor
    · simp only [Level.apply_tool, hplay]
      exact axe_filter_hits _ _ (by simp)
    · rw [if_neg hp]
      simp only [Level.apply_tool, hplay]
      exact axe_filter_sounds_npc _

/-- Helper: an axe dispatch never delegates to the soil grid. -/
theorem axe_filter_soil (l : List Tree) (P : List Effect)
    (hP : P.filter Effect.isSoil = []) :
    (l.flatMap fun t => Effect.treeHit t.id :: P).filter Effect.isSoil = [] := by
  induction l with
  | nil => simp
  | cons t ts ih =>
    simp only [List.flatMap_cons, List.filter_append, List.filter_cons]
    simp [Effect.isSoil, hP, ih]

/-- Claim C7: tool dispatch gates its sounds differently per branch — for
the player, the hoe sound plays exactly on soil-grid success, the water
sound plays unconditionally with no outcome consulted, and a seed plays
the plant sound on success and the cant-plant sound on failure — and
every dispatch delegates at most one mutation to the soil grid. -/
theorem apply_tool_sound_gating :
    ∀ (st : Level) (pos : Pos) (k : Nat) (entity : Character),
      entity.isPlayer = true →
      (st.apply_tool FarmingTool.HOE pos entity =
          Effect.soilHoe pos ::
            (if st.soil_layer.hoe pos then [Effect.sound SoundName.hoe] else []) ∧
       st.apply_tool FarmingTool.WATERING_CAN pos entity =
          [Effect.soilWater pos, Effect.sound SoundName.water] ∧
       st.apply_tool (FarmingTool.seed k) pos entity =
          [Effect.soilPlant pos k,
           if st.soil_layer.plant pos k then Effect.sound SoundName.plant
           else Effect.sound SoundName.cant_plant] ∧
       ∀ (tool : FarmingTool),
         ((st.apply_tool tool pos entity).filter Effect.isSoil).length ≤ 1) := by
  intro st pos k entity hp
  refine ⟨?_, ?_, ?_, ?_⟩
  · by_cases h : st.soil_layer.hoe pos <;>
      simp [Level.apply_tool, play_playeronly_sound, hp, h]
  · simp [Level.apply_tool, play_playeronly_sound, hp]
  · by_cases h : st.soil_layer.plant pos k <;>
      simp [Level.apply_tool, play_playeronly_sound, hp, h]
  · intro tool
    cases tool with
    | AXE =>
      rw [show (st.apply_tool FarmingTool.AXE pos entity).filter Effect.isSoil = []
        from axe_filter_soil _ _ (by
          by_cases hq : entity.isPlayer <;>
            simp [play_playeronly_sound, hq, Effect.isSoil])]
      simp
    | HOE =>
      by_cases h : st.soil_layer.hoe pos <;>
        by_cases hq : entity.isPlayer <;>
          simp [Level.apply_tool, play_playeronly_sound, Effect.isSoil, h, hq]
    | WATERING_CAN =>
      by_cases hq : entity.isPlayer <;>
        simp [Level.apply_tool, play_playeronly_sound, Effect.isSoil, hq]
    | seed k2 =>
      by_cases h : st.soil_layer.plant pos k2 <;>
        by_cases hq : entity.isPlayer <;>
          simp [Level.apply_tool, play_playeronly_sound, Effect.isSoil, h, hq]

/-- Claim C7 witness: the gating instantiated for the player on the concrete
level stW at the origin tile. -/
theorem apply_tool_sound_gating_witness :
    stW.apply_tool FarmingTool.HOE p0 charP =
        Effect.soilHoe p0 ::
          (if stW.soil_layer.hoe p0 then [Effect.sound SoundName.hoe] else []) ∧
      stW.apply_tool FarmingTool.WATERING_CAN p0 charP =
        [Effect.soilWater p0, Effect.sound SoundName.water] ∧
      stW.apply_tool (FarmingTool.seed 0) p0 charP =
        [Effect.soilPlant p0 0,
         if stW.soil_layer.plant p0 0 then Effect.sound SoundName.plant
         else Effect.sound SoundName.cant_plant] ∧
      ∀ (tool : FarmingTool),
        ((stW.apply_tool tool p0 charP).filter Effect.isSoil).length ≤ 1 :=
  apply_tool_sound_gating stW p0 0 charP rfl

/-- Claim C8 counterexample: a start-quake event is acted upon — the quaker
is started with the requested duration — yet handle_event returns false
for it, so the returned boolean is not true for every consumed event. -/
theorem handle_event_quake_not_consumed :
    (stW.handle_event (PEvent.startQuake 5)).consumed = false ∧
    (stW.handle_event (PEvent.startQuake 5)).level.quake = some 5 := by
  constructor <;> rfl

/-- Claim C8 (amended): handle_event returns true exactly for the keydown
events matching the pause, debug-hitbox-toggle, dialog-show or
dialog-advance keys; the external start-quake signal starts the quake but
is reported as not consumed. -/
theorem handle_event_consumed :
    ∀ (st : Level) (e : PEvent),
      ((st.handle_event e).consumed = true ↔
        ∃ k, e = PEvent.keydown k ∧
          (k = K_ESCAPE ∨ k = st.controls.debug_show_hitboxes ∨
           k = st.controls.show_dialog ∨ k = st.controls.advance_dialog)) ∧
      ∀ (d : Nat),
        (st.handle_event (PEvent.startQuake d)).level.quake = some d ∧
        (st.handle_event (PEvent.startQuake d)).consumed = false := by
  intro st e
  constructor
  · cases e with
    | keydown k =>
      simp only [Level.handle_event]
      split_ifs with h1 h2 h3 h4 <;> simp_all
    | startQuake d => simp [Level.handle_event]
    | other => simp [Level.handle_event]
  · intro d
    constructor <;> rfl

/-- Claim C10: interact inspects only the first collided interaction
sprite — Bed starts the day transition, Trader switches to the shop, and
every other overlapping interactable is ignored in that call; with no
overlap, interact changes nothing. -/
theorem interact_first_only :
    ∀ (st : Level),
      ((st.interaction_sprites.filter fun i => st.player_rect.colliderect i.rect) = [] →
        st.interact = (st, none)) ∧
      ∀ (first : Interaction) (rest : List Interaction),
        (st.interaction_sprites.filter fun i => st.player_rect.colliderect i.rect) =
          first :: rest →
        st.interact =
          ((if first.name = InteractionName.bed then st.start_day_transition else st),
           (if first.name = InteractionName.trader then some GameState.SHOP else none)) := by
  intro st
  constructor
  · intro h
    simp [Level.interact, h]
  · intro first rest h
    simp [Level.interact, h]

/-- Claim C10 witness: on stBed the player overlaps a bed first and a trader
second; only the bed acts — the day transition starts and no screen
switch happens. -/
theorem interact_first_only_witness :
    stBed.interact =
      ((if bedI.name = InteractionName.bed then stBed.start_day_transition else stBed),
       (if bedI.name = InteractionName.trader then some GameState.SHOP else none)) :=
  (interact_first_only stBed).2 bedI [traderI] (by rfl)

end PydewLevel
